import Mathlib

/-!
Verification of the smartOffice-pro AI prediction service
(`src/backend/ai-service.py`) against its natural-language specification.

The Python service is shallowly embedded: images are pixel grids of
natural-number channel values, tensors are functions on `Fin` index types,
the classifier model is an abstract function from tensors to probability
pairs (possibly failing, modelling a raised exception inside
`model.predict`), and the HTTP handlers are pure functions from a request
model to an outcome record that also carries the list of side-effecting
events the handler performed (decode call, model call, file save/remove)
and whether the staged temporary file is still on disk when the handler
returns.
-/

namespace AiService

/-- Side effects a handler can perform, recorded in order. -/
inductive Event where
  | decodeCall    -- cv2.imread on the staged path (entering preprocess_image)
  | modelPredict  -- model.predict(...)
  | saveFile      -- file.save(filepath) / writing the temp file
  | readFile      -- re-reading the staged bytes for the base64 echo
  | removeFile    -- os.remove(filepath)
deriving DecidableEq, Repr

/-- A decoded image as produced by `cv2.imread`: a 3-channel pixel grid of
variable height and width; `pix r c k` is the channel-`k` value of the
pixel at row `r`, column `c` (uint8 values, so `≤ 255` for in-range
coordinates). -/
structure Image where
  h : Nat
  w : Nat
  pix : Nat → Nat → Fin 3 → Nat

/-- The fixed-shape input tensor: batch 1, 128×128 pixels, 3 channels,
rational channel values (modelling the float64 array `image_reshaped`). -/
def Tensor4 : Type := Fin 1 → Fin 128 → Fin 128 → Fin 3 → ℚ

/-- `cv2.resize(image, (128, 128))`, modelled as coordinate resampling:
the output pixel at `(r, c)` is taken from the source at the proportional
coordinate.  (The interpolation details of OpenCV do not matter for the
claims; any interpolation keeps values inside the range of the source
values, which sampling models exactly.) -/
def resizeTo128 (image : Image) : Image :=
  { h := 128, w := 128
    pix := fun r c k => image.pix (r * image.h / 128) (c * image.w / 128) k }

/-- `cv2.cvtColor(image_resized, cv2.COLOR_BGR2RGB)`: reverse the channel
order. -/
def cvtColorBGR2RGB (image : Image) : Image :=
  { h := image.h, w := image.w
    pix := fun r c k => image.pix r c ⟨2 - k.val, by omega⟩ }

/-- `image_rgb / 255.0`: scale every channel value to a rational. -/
def normalizeDiv255 (image : Image) : Fin 128 → Fin 128 → Fin 3 → ℚ :=
  fun r c k => (image.pix r.val c.val k : ℚ) / 255

/-- `np.expand_dims(image_normalized, axis=0)`: insert the leading batch
dimension. -/
def expandDims0 (t : Fin 128 → Fin 128 → Fin 3 → ℚ) : Tensor4 :=
  fun _ r c k => t r c k

/-- The tensor produced by the body of `preprocess_image` on a decoded
image: resize, BGR→RGB, divide by 255, expand dims — in that order. -/
def preprocessTensor (image : Image) : Tensor4 :=
  expandDims0 (normalizeDiv255 (cvtColorBGR2RGB (resizeTo128 image)))

/-- `preprocess_image(image_path)`: decode (`cv2.imread`, abstracted as
the `decode` parameter), returning `(None, None)` when decoding fails,
else the preprocessed tensor together with the original image. -/
def preprocess_image (decode : String → Option Image) (image_path : String) :
    Option Tensor4 × Option Image :=
  match decode image_path with
  | none => (none, none)
  | some image => (some (preprocessTensor image), some image)

/-- The classifier capability: `model.predict` on a batch-1 tensor yields
the per-example probability pair `(p_no_mask, p_mask)` (`prediction[0][0]`,
`prediction[0][1]`), or fails (a raised exception inside the call). -/
def Model : Type := Tensor4 → Except String (ℚ × ℚ)

/-- `np.argmax` on the two-element vector `[p0, p1]`: index of the first
occurrence of the maximum, so index 1 only when `p1` is strictly
greater. -/
def npArgmax2 (p0 p1 : ℚ) : Nat :=
  if p0 < p1 then 1 else 0

/-- The result record built by `predict_mask` on success. -/
structure PredictionResult where
  result : String
  confidence : ℚ
  mask_probability : ℚ
  no_mask_probability : ℚ
deriving DecidableEq, Repr

/-- `predict_mask(image_path)`: returns the `(result_dict, error)` pair of
the Python function, plus the ordered list of side-effecting calls it
made.  Mirrors the source: model-availability check first, then
preprocessing, then prediction, then argmax/label/confidence shaping. -/
def predict_mask (model : Option Model) (decode : String → Option Image)
    (image_path : String) :
    (Option PredictionResult × Option String) × List Event :=
  match model with
  | none => ((none, some "Model not loaded. Please train the model first."), [])
  | some m =>
    match preprocess_image decode image_path with
    | (none, _) => ((none, some "Error processing image"), [Event.decodeCall])
    | (some processed_image, _) =>
      match m processed_image with
      | Except.error e =>
          ((none, some ("Error during prediction: " ++ e)),
           [Event.decodeCall, Event.modelPredict])
      | Except.ok (p0, p1) =>
          let mask_prob := p1
          let no_mask_prob := p0
          let pred_label := npArgmax2 p0 p1
          let result := if pred_label = 1 then "Wearing Mask" else "Not Wearing Mask"
          let confidence := if pred_label = 1 then mask_prob else no_mask_prob
          ((some { result := result, confidence := confidence,
                   mask_probability := mask_prob,
                   no_mask_probability := no_mask_prob }, none),
           [Event.decodeCall, Event.modelPredict])

/-- The allowed raster-image extensions (`ALLOWED_EXTENSIONS`). -/
def ALLOWED_EXTENSIONS : List String := ["png", "jpg", "jpeg", "gif", "webp"]

/-- The characters after the last dot of a character list, or `none` when
no dot occurs: `filename.rsplit('.', 1)[1]` guarded by `'.' in filename`. -/
def afterLastDot : List Char → Option (List Char)
  | [] => none
  | c :: rest =>
    match afterLastDot rest with
    | some ext => some ext
    | none => if c = '.' then some rest else none

/-- `allowed_file(filename)`: `'.' in filename and
filename.rsplit('.', 1)[1].lower() in ALLOWED_EXTENSIONS`. -/
def allowed_file (filename : String) : Bool :=
  match afterLastDot filename.toList with
  | none => false
  | some ext => ALLOWED_EXTENSIONS.contains (ext.map Char.toLower).asString

/-- The condition "the filename's extension, compared case-insensitively,
is not in the allowed raster-image set" (vacuously true when the filename
has no dot and therefore no extension). -/
def extensionNotAllowed (filename : String) : Bool :=
  Option.all
    (fun ext => !(ALLOWED_EXTENSIONS.contains (ext.map Char.toLower).asString))
    (afterLastDot filename.toList)

/-- The upload request as seen by `upload_file`: whether a `file` field is
present in `request.files`, and the claimed filename. -/
structure UploadRequest where
  hasFileField : Bool
  filename : String
deriving DecidableEq, Repr

/-- Outcome of an upload-path handler call: HTTP status, error message (if
any), the prediction payload on success, whether the staged temporary file
still exists on disk when the handler returns, and the side-effecting
calls made, in order. -/
structure UploadOutcome where
  status : Nat
  error : Option String
  prediction : Option PredictionResult
  stagedFileOnDisk : Bool
  events : List Event
deriving DecidableEq, Repr

/-- The staged path `os.path.join(app.config['UPLOAD_FOLDER'], filename)`
(the `secure_filename` sanitization is a thin wrapper and is not modelled
further). -/
def filepathFor (filename : String) : String :=
  "uploads/" ++ filename

/-- `upload_file()`: the `POST /upload` handler.  Mirrors the source
exactly: missing `file` field → 400; empty filename → 400; disallowed
extension → 400 with no staging; otherwise the bytes are staged
(`file.save`), `predict_mask` runs, and — as in the source — `os.remove`
is executed only on the success path after the base64 echo re-read, so a
prediction error returns 500 with the staged file still on disk. -/
def upload_file (model : Option Model) (decode : String → Option Image)
    (req : UploadRequest) : UploadOutcome :=
  if req.hasFileField = false then
    { status := 400, error := some "No file uploaded", prediction := none,
      stagedFileOnDisk := false, events := [] }
  else if req.filename = "" then
    { status := 400, error := some "No file selected", prediction := none,
      stagedFileOnDisk := false, events := [] }
  else if allowed_file req.filename then
    let filepath := filepathFor req.filename
    let r := predict_mask model decode filepath
    match r.1.2 with
    | some e =>
        { status := 500, error := some e, prediction := none,
          stagedFileOnDisk := true, events := Event.saveFile :: r.2 }
    | none =>
        { status := 200, error := none, prediction := r.1.1,
          stagedFileOnDisk := false,
          events := Event.saveFile :: r.2 ++ [Event.readFile, Event.removeFile] }
  else
    { status := 400, error := some "Invalid file type", prediction := none,
      stagedFileOnDisk := false, events := [] }

/-- The JSON body returned by the health endpoint. -/
structure HealthBody where
  status : String
  model_loaded : Bool
  service : String
deriving DecidableEq, Repr

/-- `health_check()`: the `GET /health` handler — a pure read of the model
handle, always HTTP 200. -/
def health_check (model : Option Model) : Nat × HealthBody :=
  (200, { status := "healthy", model_loaded := model.isSome,
          service := "ai-prediction-service" })

/-- The characters strictly after the first comma, or `none` when no comma
occurs. -/
def afterFirstComma : List Char → Option (List Char)
  | [] => none
  | c :: rest => if c = ',' then some rest else afterFirstComma rest

/-- The characters up to (excluding) the first comma. -/
def upToComma : List Char → List Char
  | [] => []
  | c :: rest => if c = ',' then [] else c :: upToComma rest

/-- `s.split(',')[1]`: the second component of the comma split — `none`
models the `IndexError` raised when the string contains no comma. -/
def splitCommaIndex1 (s : String) : Option String :=
  (afterFirstComma s.toList).map (fun cs => (upToComma cs).asString)

/-- Outcome of the webcam handler: HTTP status, error message, success
flag, whether the temp file is still on disk at return, and the
side-effecting calls made. -/
structure WebcamOutcome where
  status : Nat
  error : Option String
  success : Bool
  stagedFileOnDisk : Bool
  events : List Event
deriving DecidableEq, Repr

/-- `webcam_prediction()`: the `POST /webcam` handler.  `data` models
`request.get_json()`: `none` for a missing/empty body, `some none` for a
body without an `image` key, `some (some s)` for body `{image: s}`.
`b64decode` abstracts `base64.b64decode` (`none` models a raised decoding
error).  A missing comma in the image string makes `split(',')[1]` raise
`IndexError`, caught by the blanket handler → 500 before any staging or
decoding.  Unlike the upload path, `os.remove` here runs before the error
check, so the temp file is gone on both the prediction-error path and the
success path. -/
def webcam_prediction (model : Option Model) (decode : String → Option Image)
    (b64decode : String → Option String) (data : Option (Option String)) :
    WebcamOutcome :=
  match data with
  | none =>
      { status := 400, error := some "No image data received", success := false,
        stagedFileOnDisk := false, events := [] }
  | some none =>
      { status := 400, error := some "No image data received", success := false,
        stagedFileOnDisk := false, events := [] }
  | some (some image) =>
    match splitCommaIndex1 image with
    | none =>
        { status := 500, error := some "Server error: list index out of range",
          success := false, stagedFileOnDisk := false, events := [] }
    | some image_data =>
      match b64decode image_data with
      | none =>
          { status := 500, error := some "Server error: Invalid base64-encoded string",
            success := false, stagedFileOnDisk := false, events := [] }
      | some _image_bytes =>
        let temp_path := "uploads/temp_webcam.jpg"
        let r := predict_mask model decode temp_path
        match r.1.2 with
        | some e =>
            { status := 500, error := some e, success := false,
              stagedFileOnDisk := false,
              events := Event.saveFile :: r.2 ++ [Event.removeFile] }
        | none =>
            { status := 200, error := none, success := true,
              stagedFileOnDisk := false,
              events := Event.saveFile :: r.2 ++ [Event.removeFile] }

/-- A candidate model path as the startup loop sees it: whether
`os.path.exists(model_path)` holds, and what `tf.keras.models.load_model`
does there (`ok` = loads an artifact, `error` = raises). -/
structure Candidate where
  pathExists : Bool
  loadResult : Except String Nat
deriving Repr

/-- The module-level model-loading loop (lines 29–50): walk the ordered
candidates, and at the first existing path attempt the load and `break`.
The single `try/except` wraps the whole loop, so a load exception aborts
the entire loop (remaining candidates are never tried) and is caught,
leaving `model = None`; the process continues either way (the function is
total — no outcome is fatal). -/
def loadModelLoop : List Candidate → Option Nat
  | [] => none
  | c :: rest =>
    if c.pathExists then
      match c.loadResult with
      | Except.ok m => some m
      | Except.error _ => none
    else
      loadModelLoop rest

/-! ### Concrete fixtures used by witnesses and counterexamples -/

/-- A small concrete 2×3 decoded image with constant channel value 100. -/
def imgFix : Image := ⟨2, 3, fun _ _ _ => 100⟩

/-- A decoder that succeeds on every path with `imgFix`. -/
def decodeFix : String → Option Image := fun _ => some imgFix

/-- A decoder that fails on every path (undecodable bytes). -/
def decodeNone : String → Option Image := fun _ => none

/-- A classifier stub returning the tied probability pair `(1/2, 1/2)`. -/
def modelTie : Model := fun _ => Except.ok (1/2, 1/2)

/-- A classifier stub returning probabilities `(3/10, 7/10)`. -/
def modelFix : Model := fun _ => Except.ok (3/10, 7/10)

/-- A base64 decoder stub that accepts every payload. -/
def b64Fix : String → Option String := fun s => some s

/-! ### Claims -/

/-- Claim C2: for every decoded 3-channel image of any height and width,
`preprocess_image` applies exactly resize-to-128×128, BGR→RGB, division
by 255, then a leading batch dimension, and the resulting tensor (shape
`(1,128,128,3)` by the type `Tensor4`) has every value in `[0,1]`
whenever the source channel values are uint8 (≤ 255). -/
theorem preprocess_image_shape_and_range (decode : String → Option Image)
    (image_path : String) (image : Image)
    (hdec : decode image_path = some image)
    (hpix : ∀ r c k, image.pix r c k ≤ 255) :
    preprocess_image decode image_path =
      (some (expandDims0 (normalizeDiv255 (cvtColorBGR2RGB (resizeTo128 image)))),
       some image) ∧
    ∀ (b : Fin 1) (r c : Fin 128) (k : Fin 3),
      0 ≤ preprocessTensor image b r c k ∧ preprocessTensor image b r c k ≤ 1 := by
  constructor
  · simp [preprocess_image, hdec, preprocessTensor]
  · intro b r c k
    unfold preprocessTensor expandDims0 normalizeDiv255 cvtColorBGR2RGB resizeTo128
    constructor
    · positivity
    · rw [div_le_one (by norm_num)]
      exact_mod_cast hpix _ _ _

/-- Witness for C2 at the concrete fixture image. -/
theorem preprocess_image_shape_and_range_witness :
    decodeFix "photo.png" = some imgFix ∧
    (∀ r c k, imgFix.pix r c k ≤ 255) ∧
    (0 ≤ preprocessTensor imgFix 0 0 0 0 ∧ preprocessTensor imgFix 0 0 0 0 ≤ 1) :=
  ⟨rfl, fun _ _ _ => by norm_num [imgFix],
   (preprocess_image_shape_and_range decodeFix "photo.png" imgFix rfl
      (fun _ _ _ => by norm_num [imgFix])).2 0 0 0 0⟩

/-- Claim C3: on every successful prediction the label is chosen by
`np.argmax` over the two-element probability vector `[p_no_mask, p_mask]`
(`npArgmax2`), and when the two probabilities are exactly equal the label
is "Not Wearing Mask" (tie broken toward index 0). -/
theorem predict_mask_label_by_argmax (m : Model) (decode : String → Option Image)
    (image_path : String) (image : Image) (p0 p1 : ℚ)
    (hdec : decode image_path = some image)
    (hm : m (preprocessTensor image) = Except.ok (p0, p1)) :
    ∃ res, (predict_mask (some m) decode image_path).1.1 = some res ∧
      res.result = (if npArgmax2 p0 p1 = 1 then "Wearing Mask" else "Not Wearing Mask") ∧
      (p0 = p1 → res.result = "Not Wearing Mask") := by
  refine ⟨{ result := if npArgmax2 p0 p1 = 1 then "Wearing Mask" else "Not Wearing Mask",
            confidence := if npArgmax2 p0 p1 = 1 then p1 else p0,
            mask_probability := p1, no_mask_probability := p0 }, ?_, rfl, ?_⟩
  · simp [predict_mask, preprocess_image, hdec, hm]
  · intro h
    simp [npArgmax2, h]

/-- Witness for C3 at the tied classifier stub. -/
theorem predict_mask_label_by_argmax_witness :
    decodeFix "photo.png" = some imgFix ∧
    modelTie (preprocessTensor imgFix) = Except.ok (1/2, 1/2) ∧
    (∃ res, (predict_mask (some modelTie) decodeFix "photo.png").1.1 = some res ∧
      res.result = (if npArgmax2 (1/2) (1/2) = 1 then "Wearing Mask" else "Not Wearing Mask") ∧
      ((1 : ℚ)/2 = 1/2 → res.result = "Not Wearing Mask")) :=
  ⟨rfl, rfl,
   predict_mask_label_by_argmax modelTie decodeFix "photo.png" imgFix (1/2) (1/2) rfl rfl⟩

/-- Counterexample to claim C4 as stated: at exactly tied probabilities
the result has `mask_probability ≥ no_mask_probability` and yet the label
is not "Wearing Mask", so `label == "Wearing Mask" ↔ mask_probability ≥
no_mask_probability` fails. -/
theorem predict_mask_label_geq_iff_cex :
    (predict_mask (some modelTie) decodeFix "tie.png").1.1 =
      some { result := "Not Wearing Mask", confidence := 1/2,
             mask_probability := 1/2, no_mask_probability := 1/2 } ∧
    ((1 : ℚ)/2 ≥ 1/2) ∧ ("Not Wearing Mask" : String) ≠ "Wearing Mask" := by
  refine ⟨?_, le_refl _, by decide⟩
  simp [predict_mask, preprocess_image, decodeFix, modelTie, npArgmax2]

/-- Claim C4, amended: for every successful prediction,
`label == "Wearing Mask"` iff `mask_probability` is STRICTLY greater than
`no_mask_probability` (at a tie the label is "Not Wearing Mask"), and
`confidence == max(mask_probability, no_mask_probability)` holds
unconditionally. -/
theorem predict_mask_label_strict_iff_confidence_max (m : Model)
    (decode : String → Option Image) (image_path : String) (image : Image)
    (p0 p1 : ℚ)
    (hdec : decode image_path = some image)
    (hm : m (preprocessTensor image) = Except.ok (p0, p1)) :
    ∃ res, (predict_mask (some m) decode image_path).1.1 = some res ∧
      (res.result = "Wearing Mask" ↔ res.no_mask_probability < res.mask_probability) ∧
      res.confidence = max res.mask_probability res.no_mask_probability := by
  refine ⟨{ result := if npArgmax2 p0 p1 = 1 then "Wearing Mask" else "Not Wearing Mask",
            confidence := if npArgmax2 p0 p1 = 1 then p1 else p0,
            mask_probability := p1, no_mask_probability := p0 }, ?_, ?_, ?_⟩
  · simp [predict_mask, preprocess_image, hdec, hm]
  · by_cases hlt : p0 < p1
    · simp [npArgmax2, hlt]
    · simp [npArgmax2, hlt]
  · by_cases hlt : p0 < p1
    · simp [npArgmax2, hlt, max_eq_left (le_of_lt hlt)]
    · simp [npArgmax2, hlt, max_eq_right (not_lt.mp hlt)]

/-- Witness for the amended C4 at the `(3/10, 7/10)` stub. -/
theorem predict_mask_label_strict_iff_confidence_max_witness :
    decodeFix "photo.png" = some imgFix ∧
    modelFix (preprocessTensor imgFix) = Except.ok (3/10, 7/10) ∧
    (∃ res, (predict_mask (some modelFix) decodeFix "photo.png").1.1 = some res ∧
      (res.result = "Wearing Mask" ↔ res.no_mask_probability < res.mask_probability) ∧
      res.confidence = max res.mask_probability res.no_mask_probability) :=
  ⟨rfl, rfl,
   predict_mask_label_strict_iff_confidence_max modelFix decodeFix "photo.png" imgFix
     (3/10) (7/10) rfl rfl⟩

/-- Claim C5: with no classifier loaded, `predict_mask` returns the
model-unavailable error immediately — the same output for every decoder —
and its event trace is empty, so the decode function is never called. -/
theorem predict_mask_model_unavailable_short_circuit
    (decode : String → Option Image) (image_path : String) :
    predict_mask none decode image_path =
      ((none, some "Model not loaded. Please train the model first."), []) ∧
    Event.decodeCall ∉ (predict_mask none decode image_path).2 := by
  constructor
  · rfl
  · simp [predict_mask]

/-- Claim C1 evaluated at a failing input: a fully staged upload (allowed
extension `photo.png`, bytes saved) whose image cannot be decoded makes
the handler return 500 with the staged temporary file STILL on disk — the
code only deletes the staged file on the success path, so the
delete-on-every-exit-path claim fails on the code. -/
theorem upload_error_path_leaks_staged_file :
    upload_file (some modelFix) decodeNone (UploadRequest.mk true "photo.png") =
      { status := 500, error := some "Error processing image", prediction := none,
        stagedFileOnDisk := true, events := [Event.saveFile, Event.decodeCall] } := by
  have hall : allowed_file "photo.png" = true := by decide
  simp [upload_file, hall, predict_mask, preprocess_image, decodeNone]

/-- Helper: the load loop skips candidates whose paths do not exist. -/
theorem loadModelLoop_append_skipped (pre rest : List Candidate)
    (hpre : ∀ x ∈ pre, x.pathExists = false) :
    loadModelLoop (pre ++ rest) = loadModelLoop rest := by
  induction pre with
  | nil => rfl
  | cons c pre ih =>
    simp only [List.cons_append, loadModelLoop, hpre c (by simp)]
    simp only [Bool.false_eq_true, if_false]
    exact ih fun x hx => hpre x (by simp [hx])

/-- Counterexample to claim C6 as stated: when the first existing
candidate raises on load, the next candidate is NOT tried — the whole
loop is aborted by the surrounding `try/except` and the handle stays
unloaded, even though loading from the next candidate alone would
succeed. -/
theorem model_load_exception_aborts_cex :
    loadModelLoop [⟨true, Except.error "load failed"⟩, ⟨true, Except.ok 7⟩] = none ∧
    loadModelLoop [⟨true, Except.ok 7⟩] = some 7 :=
  ⟨rfl, rfl⟩

/-- Claim C6, amended: model loading walks the candidates in order and at
the FIRST existing path attempts the load and stops — on a successful
load the handle holds that artifact, and on a load exception the whole
load sequence is aborted (later candidates are never tried) with the
handle left unloaded; when no candidate path exists the handle is also
left unloaded.  In every case the loop yields a value (degraded mode)
rather than failing fatally. -/
theorem model_load_first_existing_path (pre : List Candidate) (c : Candidate)
    (rest cs : List Candidate)
    (hpre : ∀ x ∈ pre, x.pathExists = false)
    (hc : c.pathExists = true)
    (hcs : ∀ x ∈ cs, x.pathExists = false) :
    loadModelLoop (pre ++ c :: rest) =
      (match c.loadResult with
       | Except.ok m => some m
       | Except.error _ => none) ∧
    loadModelLoop cs = none := by
  constructor
  · rw [loadModelLoop_append_skipped pre _ hpre]
    simp [loadModelLoop, hc]
  · have h := loadModelLoop_append_skipped cs [] hcs
    simpa using h

/-- Witness for the amended C6 at concrete candidate lists. -/
theorem model_load_first_existing_path_witness :
    (∀ x ∈ ([⟨false, Except.error "missing"⟩] : List Candidate), x.pathExists = false) ∧
    (Candidate.mk true (Except.ok 5)).pathExists = true ∧
    (∀ x ∈ ([] : List Candidate), x.pathExists = false) ∧
    (loadModelLoop ([⟨false, Except.error "missing"⟩] ++ ⟨true, Except.ok 5⟩ :: []) =
       (match (Candidate.mk true (Except.ok 5)).loadResult with
        | Except.ok m => some m
        | Except.error _ => none) ∧
     loadModelLoop ([] : List Candidate) = none) :=
  ⟨by decide, rfl, by decide,
   model_load_first_existing_path [⟨false, Except.error "missing"⟩]
     ⟨true, Except.ok 5⟩ [] [] (by decide) rfl (by decide)⟩

/-- Claim C7: an upload request with no file field, or with an empty
filename, yields status 400 and the classifier is never invoked (no
model-predict event, and no decode event either). -/
theorem upload_missing_file_rejected_400 (model : Option Model)
    (decode : String → Option Image) (req : UploadRequest)
    (h : req.hasFileField = false ∨ req.filename = "") :
    (upload_file model decode req).status = 400 ∧
    Event.modelPredict ∉ (upload_file model decode req).events ∧
    Event.decodeCall ∉ (upload_file model decode req).events := by
  rcases h with h | h
  · simp [upload_file, h]
  · cases hf : req.hasFileField
    · simp [upload_file, hf]
    · simp [upload_file, hf, h]

/-- Witness for C7 at a request with no file field. -/
theorem upload_missing_file_rejected_400_witness :
    ((UploadRequest.mk false "a.png").hasFileField = false ∨
       (UploadRequest.mk false "a.png").filename = "") ∧
    ((upload_file none decodeNone (UploadRequest.mk false "a.png")).status = 400 ∧
     Event.modelPredict ∉ (upload_file none decodeNone (UploadRequest.mk false "a.png")).events ∧
     Event.decodeCall ∉ (upload_file none decodeNone (UploadRequest.mk false "a.png")).events) :=
  ⟨Or.inl rfl, upload_missing_file_rejected_400 none decodeNone _ (Or.inl rfl)⟩

/-- Helper: the claim-side extension condition makes `allowed_file`
return false. -/
theorem allowed_file_eq_false_of_extensionNotAllowed (filename : String)
    (h : extensionNotAllowed filename = true) : allowed_file filename = false := by
  unfold extensionNotAllowed at h
  unfold allowed_file
  cases hx : afterLastDot filename.toList with
  | none => rfl
  | some ext =>
    rw [hx] at h
    simp [Option.all] at h
    simp [h]

/-- Claim C8: an upload whose filename's extension (case-insensitively)
is not in {png, jpg, jpeg, gif, webp} is rejected with status 400, the
bytes are never written to disk (no save event), and no staged file
exists at return. -/
theorem upload_disallowed_extension_not_staged (model : Option Model)
    (decode : String → Option Image) (req : UploadRequest)
    (h : extensionNotAllowed req.filename = true) :
    (upload_file model decode req).status = 400 ∧
    Event.saveFile ∉ (upload_file model decode req).events ∧
    (upload_file model decode req).stagedFileOnDisk = false := by
  have hall := allowed_file_eq_false_of_extensionNotAllowed req.filename h
  cases hf : req.hasFileField
  · simp [upload_file, hf]
  · by_cases hn : req.filename = ""
    · simp [upload_file, hf, hn]
    · simp [upload_file, hf, hn, hall]

/-- Witness for C8 at the spec's own example filename `virus.exe`. -/
theorem upload_disallowed_extension_not_staged_witness :
    extensionNotAllowed "virus.exe" = true ∧
    ((upload_file none decodeNone (UploadRequest.mk true "virus.exe")).status = 400 ∧
     Event.saveFile ∉ (upload_file none decodeNone (UploadRequest.mk true "virus.exe")).events ∧
     (upload_file none decodeNone (UploadRequest.mk true "virus.exe")).stagedFileOnDisk = false) :=
  ⟨by decide, upload_disallowed_extension_not_staged none decodeNone _ (by decide)⟩

/-- Claim C9: the health endpoint always returns status 200 with exactly
`{status: "healthy", model_loaded: b, service: "ai-prediction-service"}`,
where `b` is true iff a classifier model is loaded; it is a pure function
of the model handle. -/
theorem health_check_contract (model : Option Model) :
    health_check model =
      (200, { status := "healthy", model_loaded := model.isSome,
              service := "ai-prediction-service" }) ∧
    (health_check model).1 = 200 ∧
    ((health_check model).2.model_loaded = true ↔ model ≠ none) := by
  refine ⟨rfl, rfl, ?_⟩
  simp [health_check, Option.isSome_iff_ne_none]

/-- Helper: no comma in the character list means the split has no second
component. -/
theorem afterFirstComma_eq_none (cs : List Char) (h : ',' ∉ cs) :
    afterFirstComma cs = none := by
  induction cs with
  | nil => rfl
  | cons c rest ih =>
    have hc : ¬ c = ',' := by
      intro hc
      exact h (by simp [hc])
    simp only [afterFirstComma, hc, if_false]
    exact ih fun hmem => h (by simp [hmem])

/-- Claim C10: a webcam request whose image string contains no comma makes
`split(',')[1]` raise, which the blanket handler converts to a 500 server
error — with no staging, no decode and no model call, whatever the base64
decoder would have said about the string. -/
theorem webcam_missing_comma_server_error (model : Option Model)
    (decode : String → Option Image) (b64decode : String → Option String)
    (image : String) (h : ',' ∉ image.toList) :
    webcam_prediction model decode b64decode (some (some image)) =
      { status := 500, error := some "Server error: list index out of range",
        success := false, stagedFileOnDisk := false, events := [] } := by
  have hs : splitCommaIndex1 image = none := by
    unfold splitCommaIndex1
    rw [afterFirstComma_eq_none image.toList h]
    rfl
  simp [webcam_prediction, hs]

/-- Witness for C10 at a comma-free, individually valid base64 payload. -/
theorem webcam_missing_comma_server_error_witness :
    (',' ∉ "aGVsbG8=".toList) ∧
    webcam_prediction (some modelFix) decodeFix b64Fix (some (some "aGVsbG8=")) =
      { status := 500, error := some "Server error: list index out of range",
        success := false, stagedFileOnDisk := false, events := [] } :=
  ⟨by decide,
   webcam_missing_comma_server_error (some modelFix) decodeFix b64Fix "aGVsbG8=" (by decide)⟩

end AiService
